import Mathlib

/-!
Shallow embedding of the write path, compaction driver, recovery and
obsolete-file collection of the `db_impl.rs` module of an LSM key-value
store, together with theorems settling the frozen claims about it.

External collaborators that are not part of `db_impl.rs` (memtable,
table builder, table cache, log writer, environment, version set) are
modelled as oracles: boolean success flags and result parameters, one per
call site that can fail or return data.  All definitions are executable.
-/

deriving instance DecidableEq for Except

namespace RustyDB

/-- Modelled from the spec: sequence numbers form a 56-bit counter
(types.rs of this repository, which is not under src/, defines
MAX_SEQUENCE_NUMBER as its largest value). -/
def MAX_SEQUENCE_NUMBER : Nat := 2 ^ 56 - 1

/-- Value classes carried in internal keys (src/types.rs, `ValueType`):
`TypeDeletion = 0` marks a tombstone, `TypeValue = 1` a regular value. -/
inductive ValueType where
  | TypeDeletion
  | TypeValue
deriving DecidableEq, Repr

/-! ## Write path (`DB::write`, db_impl.rs lines 358-371) -/

/-- One entry of a WriteBatch: kind, key and value bytes (bytes as `List Nat`). -/
structure BatchEntry where
  vtype : ValueType
  key : List Nat
  val : List Nat
deriving DecidableEq, Repr

/-- One memtable entry: sequence-tagged key/value pair. -/
structure MemEntry where
  seq : Nat
  vtype : ValueType
  key : List Nat
  val : List Nat
deriving DecidableEq, Repr

/-- Modelled from the spec: `WriteBatch::insert_into_memtable` (write_batch.rs
is not under src/) inserts the batch entries into the memtable at consecutive
sequence numbers starting from the batch sequence (spec section 6: a batch body
is `sequence, count, entries`; section 4.7: "Insert into the memtable at the
batch's sequence"). The memtable is modelled as the list of inserted entries. -/
def insert_into_memtable (next : Nat) (batch : List BatchEntry) (mem : List MemEntry) :
    List MemEntry :=
  mem ++ List.zipWith (fun i e => MemEntry.mk (next + i) e.vtype e.key e.val)
    (List.range batch.length) batch

/-- The state touched by `DB::write`: the active memtable, the version set's
`last_seq`, and the WAL contents (list of appended records, each an encoded
batch tagged with its start sequence). -/
structure WState where
  mem : List MemEntry
  last_seq : Nat
  wal : List (Nat × List BatchEntry)
deriving DecidableEq, Repr

/-- `DB::write` (db_impl.rs lines 358-371).  `addOk` is the oracle for
`log.add_record`, `flushOk` for `log.flush`.  Mirrors the source order:
the batch is inserted into the memtable, then the WAL record is appended,
then (if `sync`) the WAL is flushed, and only then `last_seq` advances.
As in Rust (`&mut self`), mutations made before an early error return persist. -/
def write (addOk flushOk : Bool) (sync : Bool) (batch : List BatchEntry) (st : WState) :
    Except String Unit × WState :=
  let entries := batch.length
  let next := st.last_seq + 1
  let st1 := { st with mem := insert_into_memtable next batch st.mem }
  if !addOk then (Except.error "wal add_record failed", st1)
  else
    let st2 := { st1 with wal := st1.wal ++ [(next, batch)] }
    if sync && !flushOk then (Except.error "wal flush failed", st2)
    else (Except.ok (), { st2 with last_seq := st2.last_seq + entries })

/-- The single-put batch used as the concrete failing input for claim C1. -/
def c1Batch : List BatchEntry := [⟨ValueType.TypeValue, [1], [2]⟩]

/-- Claim C1: the claim says the WAL record is appended before the memtable
insert returns success, and that a failed WAL append leaves the memtable
unchanged.  The code inserts the batch into the memtable first; evaluating
`write` with a failing WAL append on a one-entry batch shows that the error
is returned, the WAL holds no record, `last_seq` is unchanged, but the
memtable has already received the entry. -/
theorem write_wal_failure_memtable_updated :
    (write false true false c1Batch ⟨[], 0, []⟩).fst = Except.error "wal add_record failed" ∧
    (write false true false c1Batch ⟨[], 0, []⟩).snd.mem =
      [⟨1, ValueType.TypeValue, [1], [2]⟩] ∧
    (write false true false c1Batch ⟨[], 0, []⟩).snd.last_seq = 0 ∧
    (write false true false c1Batch ⟨[], 0, []⟩).snd.wal = [] := by
  decide

/-! ## Compaction execution (`DB::do_compaction_work`, db_impl.rs lines 657-754,
`DB::finish_compaction_output`, lines 756-790) -/

/-- A parsed internal key as produced by `parse_internal_key`: user key
(abstracted to a `Nat` identifier compared with the user comparator),
sequence number, value type.  Per the source convention, `seq = 0` marks a
key whose parse failed. -/
structure IKey where
  ukey : Nat
  seq : Nat
  vtype : ValueType
deriving DecidableEq, Repr

/-- `FileMetaData` (types.rs of the repository): file number, byte size and
smallest/largest internal key (absent until set). -/
structure FileMetaData where
  num : Nat
  size : Nat
  smallest : Option IKey
  largest : Option IKey
deriving DecidableEq, Repr

/-- `CompactionState` (db_impl.rs lines 815-821): the builder is modelled as
the list of entries added to it so far (`None` when no output is open). -/
structure CState where
  smallest_seq : Nat
  outputs : List FileMetaData
  builder : Option (List (IKey × Nat))
  total_bytes : Nat
deriving DecidableEq, Repr

/-- Oracles for the collaborators `do_compaction_work` consults:
`should_stop_before` and `is_base_level_for` come from the `Compaction`
(version_set.rs), `size_estimate`/`finish_bytes`/`finish_ok` stand for the
opaque `TableBuilder`, `cache_ok` for `TableCache::get_table`, `open_ok` for
`Env::open_writable_file`, `add_ok` for `TableBuilder::add`. -/
structure CompactionEnv where
  should_stop_before : IKey → Bool
  is_base_level_for : Nat → Bool
  size_estimate : List (IKey × Nat) → Nat
  finish_bytes : List (IKey × Nat) → Nat
  finish_ok : Bool
  cache_ok : Nat → Bool
  open_ok : Bool
  add_ok : Bool
  max_file_size : Nat

/-- Replace the last element of the output list (the source's
`current_output()`, which is `outputs[len - 1]`). -/
def updateLast (outs : List FileMetaData) (f : FileMetaData → FileMetaData) :
    List FileMetaData :=
  outs.dropLast ++ (outs.getLast?.map f).toList

/-- Result of `finish_compaction_output`: success or error both carry the
mutated state (the Rust receiver is `&mut`); `panicked` marks a failed
`assert!` or an out-of-bounds index. -/
inductive FinOutcome where
  | ok (cs : CState)
  | error (msg : String) (cs : CState)
  | panicked (msg : String)
deriving DecidableEq, Repr

/-- `DB::finish_compaction_output` (db_impl.rs lines 756-790): asserts a
builder exists and the current output has a nonzero number, takes the
builder, finishes it into `bytes`, records largest key and size on the
current output, and verifies the table is readable through the cache when
it has entries. -/
def finish_compaction_output (env : CompactionEnv) (cs : CState) (largest : IKey) :
    FinOutcome :=
  match cs.builder with
  | none => FinOutcome.panicked "assertion failed: cs.builder.is_some()"
  | some b =>
    match cs.outputs.getLast? with
    | none => FinOutcome.panicked "index out of range: cs.outputs is empty"
    | some out =>
      if out.num == 0 then FinOutcome.panicked "assertion failed: output_num > 0"
      else
        let entries := b.length
        let cs1 := { cs with builder := none }
        if !env.finish_ok then FinOutcome.error "builder finish failed" cs1
        else
          let bytes := env.finish_bytes b
          let cs2 := { cs1 with
            total_bytes := cs1.total_bytes + bytes,
            outputs := updateLast cs1.outputs
              (fun o => { o with largest := some largest, size := bytes }) }
          if entries > 0 && !(env.cache_ok out.num) then
            FinOutcome.error "new table not readable" cs2
          else FinOutcome.ok cs2

/-- The local variables of the `do_compaction_work` loop, together with the
version set's file-number counter and a log `written` of every key passed to
`builder.add` (the observable the claims speak about). -/
structure LoopState where
  cs : CState
  next_file_num : Nat
  last_seq_for_key : Nat
  have_ukey : Bool
  current_ukey : Nat
  key : IKey
  written : List IKey
deriving DecidableEq, Repr

/-- Outcome of the compaction loop: `fuelOut` marks that the fuel bound was
reached, which in the source corresponds to an iteration of the `while` loop
that makes no progress (a `continue` that skips `input.advance()`). -/
inductive WorkOutcome where
  | ok (ls : LoopState)
  | error (msg : String) (ls : LoopState)
  | panicked (msg : String)
  | fuelOut (ls : LoopState)
deriving DecidableEq, Repr

/-- The `while input.valid()` loop of `do_compaction_work` (db_impl.rs lines
683-736), translated statement by statement.  The input iterator is the list
of remaining `(key, value)` pairs; `continue` re-enters the loop on the same
list when the source does not call `input.advance()`. -/
def do_compaction_loop (env : CompactionEnv) :
    Nat → List (IKey × Nat) → LoopState → WorkOutcome
  | 0, _, ls => WorkOutcome.fuelOut ls
  | _ + 1, [], ls => WorkOutcome.ok ls
  | fuel + 1, (k, v) :: rest, ls =>
    let ls := { ls with key := k }
    let afterStop : Except WorkOutcome LoopState :=
      if env.should_stop_before k && ls.cs.builder.isNone then
        match finish_compaction_output env ls.cs k with
        | FinOutcome.ok cs => Except.ok { ls with cs := cs }
        | FinOutcome.error m cs => Except.error (WorkOutcome.error m { ls with cs := cs })
        | FinOutcome.panicked m => Except.error (WorkOutcome.panicked m)
      else Except.ok ls
    match afterStop with
    | Except.error w => w
    | Except.ok ls =>
      if k.seq == 0 then
        do_compaction_loop env fuel ((k, v) :: rest)
          { ls with last_seq_for_key := MAX_SEQUENCE_NUMBER }
      else
        let ls :=
          if !ls.have_ukey || k.ukey != ls.current_ukey then
            { ls with current_ukey := k.ukey, have_ukey := true,
                      last_seq_for_key := MAX_SEQUENCE_NUMBER }
          else ls
        if ls.last_seq_for_key ≤ ls.cs.smallest_seq then
          do_compaction_loop env fuel ((k, v) :: rest) ls
        else if k.vtype == ValueType.TypeDeletion && k.seq ≤ ls.cs.smallest_seq &&
                env.is_base_level_for k.ukey then
          do_compaction_loop env fuel ((k, v) :: rest) ls
        else
          let opened : Except WorkOutcome LoopState :=
            if ls.cs.builder.isNone then
              let fnum := ls.next_file_num
              let ls := { ls with next_file_num := ls.next_file_num + 1 }
              if !env.open_ok then
                Except.error (WorkOutcome.error "open_writable_file failed" ls)
              else
                Except.ok { ls with cs := { ls.cs with
                  builder := some [],
                  outputs := ls.cs.outputs ++ [⟨fnum, 0, none, none⟩] } }
            else Except.ok ls
          match opened with
          | Except.error w => w
          | Except.ok ls =>
            match ls.cs.builder with
            | none => WorkOutcome.panicked "builder unexpectedly absent"
            | some b =>
              let ls :=
                if b.length == 0 then
                  { ls with cs := { ls.cs with
                    outputs := updateLast ls.cs.outputs
                      (fun o => { o with smallest := some k }) } }
                else ls
              if !env.add_ok then WorkOutcome.error "builder add failed" ls
              else
                let ls := { ls with
                  cs := { ls.cs with builder := some (b ++ [(k, v)]) },
                  written := ls.written ++ [k] }
                if env.size_estimate (b ++ [(k, v)]) > env.max_file_size then
                  match finish_compaction_output env ls.cs k with
                  | FinOutcome.ok cs => do_compaction_loop env fuel rest { ls with cs := cs }
                  | FinOutcome.error m cs => WorkOutcome.error m { ls with cs := cs }
                  | FinOutcome.panicked m => WorkOutcome.panicked m
                else
                  do_compaction_loop env fuel rest ls

/-- `DB::do_compaction_work` (db_impl.rs lines 657-754): initial loop state
(fresh `CompactionState` with the given `smallest_seq`, `last_seq_for_key`
at `MAX_SEQUENCE_NUMBER`, no current user key), the main loop, and the
trailing `finish_compaction_output` when a builder is still open. -/
def do_compaction_work (env : CompactionEnv) (fuel : Nat) (smallest_seq : Nat)
    (next_file_num : Nat) (input : List (IKey × Nat)) : WorkOutcome :=
  let ls0 : LoopState :=
    ⟨⟨smallest_seq, [], none, 0⟩, next_file_num, MAX_SEQUENCE_NUMBER, false, 0,
     ⟨0, 0, ValueType.TypeValue⟩, []⟩
  match do_compaction_loop env fuel input ls0 with
  | WorkOutcome.ok ls =>
    if ls.cs.builder.isSome then
      match finish_compaction_output env ls.cs ls.key with
      | FinOutcome.ok cs => WorkOutcome.ok { ls with cs := cs }
      | FinOutcome.error m cs => WorkOutcome.error m { ls with cs := cs }
      | FinOutcome.panicked m => WorkOutcome.panicked m
    else WorkOutcome.ok ls
  | w => w

/-- Keys that reached `builder.add` during a run. -/
def workWritten : WorkOutcome → List IKey
  | WorkOutcome.ok ls => ls.written
  | WorkOutcome.error _ ls => ls.written
  | WorkOutcome.panicked _ => []
  | WorkOutcome.fuelOut ls => ls.written

/-- Output files of a run. -/
def workOutputs : WorkOutcome → List FileMetaData
  | WorkOutcome.ok ls => ls.cs.outputs
  | WorkOutcome.error _ ls => ls.cs.outputs
  | WorkOutcome.panicked _ => []
  | WorkOutcome.fuelOut ls => ls.cs.outputs

/-- Whether a run ended in `Ok`. -/
def workIsOk : WorkOutcome → Bool
  | WorkOutcome.ok _ => true
  | _ => false

/-- Whether a run hit a failed assertion. -/
def workIsPanic : WorkOutcome → Bool
  | WorkOutcome.panicked _ => true
  | _ => false

/-- A compaction environment in which every collaborator succeeds, no
grandparent split point is hit, no level below the output is relevant, and
the size-based split never triggers. -/
def calmEnv : CompactionEnv :=
  ⟨fun _ => false, fun _ => false, fun _ => 0, fun b => 100 * b.length,
   true, fun _ => true, true, true, 1000⟩

/-- Input for claim C2: two Value entries for the same user key 1, at
sequences 5 and 3, both at or below the smallest snapshot sequence 10. -/
def c2Input : List (IKey × Nat) :=
  [(⟨1, 5, ValueType.TypeValue⟩, 11), (⟨1, 3, ValueType.TypeValue⟩, 22)]

/-- Claim C2: the claim says that after the entry (ukey 1, seq 5) is written,
`last_seq_for_key` becomes 5, so the following entry (ukey 1, seq 3) is
dropped by rule A because 5 is at most `smallest_seq = 10`.  The loop body
never assigns `last_seq_for_key = seq`, so the older duplicate is written to
the output as well: the run succeeds and both keys reach `builder.add`. -/
theorem compaction_drop_rule_a_missing :
    workWritten (do_compaction_work calmEnv 10 10 7 c2Input) =
      [⟨1, 5, ValueType.TypeValue⟩, ⟨1, 3, ValueType.TypeValue⟩] ∧
    workIsOk (do_compaction_work calmEnv 10 10 7 c2Input) = true := by
  decide

/-- A compaction environment whose grandparent check requests a split right
before user key 2 (everything else succeeds, as in `calmEnv`). -/
def stopAt2Env : CompactionEnv :=
  { calmEnv with should_stop_before := fun k => k.ukey == 2 }

/-- Input whose first key already triggers `should_stop_before`. -/
def c4InputA : List (IKey × Nat) := [(⟨2, 5, ValueType.TypeValue⟩, 11)]

/-- Input where `should_stop_before` triggers on the second key, after the
first key has opened a (non-empty) builder. -/
def c4InputB : List (IKey × Nat) :=
  [(⟨1, 5, ValueType.TypeValue⟩, 11), (⟨2, 4, ValueType.TypeValue⟩, 12)]

/-- Claim C4: the claim says the current output is finished when
`should_stop_before(next_key)` holds and the builder is non-empty, and that
nothing is finished while the builder is empty or absent.  The source tests
`should_stop_before(&key) && cs.builder.is_none()`, the opposite: with no
builder open the run calls `finish_compaction_output`, whose
`assert!(cs.builder.is_some())` fails (first conjunct); with a non-empty
builder no split happens, so both keys end up in one single output file
instead of two (remaining conjuncts). -/
theorem compaction_stop_before_condition_inverted :
    workIsPanic (do_compaction_work stopAt2Env 10 10 7 c4InputA) = true ∧
    (workOutputs (do_compaction_work stopAt2Env 10 10 7 c4InputB)).length = 1 ∧
    workWritten (do_compaction_work stopAt2Env 10 10 7 c4InputB) =
      [⟨1, 5, ValueType.TypeValue⟩, ⟨2, 4, ValueType.TypeValue⟩] ∧
    workIsOk (do_compaction_work stopAt2Env 10 10 7 c4InputB) = true := by
  decide

/-! ## Installing or aborting a compaction (`DB::start_compaction`, db_impl.rs
lines 579-592, `DB::install_compaction_results`, lines 792-806,
`CompactionState::cleanup`, lines 839-846) -/

/-- A `VersionEdit` restricted to the fields this module writes: deleted
files as `(level, file number)` pairs and added files as `(level, meta)`. -/
structure EditM where
  deleted : List (Nat × Nat)
  added : List (Nat × FileMetaData)
deriving DecidableEq, Repr

/-- The inputs of a `Compaction`: source level, input file numbers at the
level and at the next level. -/
structure CompactionDesc where
  level : Nat
  inputs0 : List Nat
  inputs1 : List Nat
deriving DecidableEq, Repr

/-- Modelled from the spec: `Compaction::add_input_deletions` (version_set.rs
is not under src/) appends a delete-file record to the edit for every input
file at L and L+1 (spec section 4.3). -/
def add_input_deletions (c : CompactionDesc) (e : EditM) : EditM :=
  { e with deleted := e.deleted ++ c.inputs0.map (fun n => (c.level, n)) ++
      c.inputs1.map (fun n => (c.level + 1, n)) }

/-- Modelled from the spec: `VersionSet::log_and_apply` (version_set.rs is
not under src/) computes the successor Version by applying the edit to the
current one — removing the deleted files and adding the new ones — and
installs it (spec section 4.2).  A Version is modelled as the list of its
`(level, file number)` pairs. -/
def log_and_apply (e : EditM) (version : List (Nat × Nat)) : List (Nat × Nat) :=
  version.filter (fun lf => !e.deleted.contains lf) ++
    e.added.map (fun ln => (ln.fst, ln.snd.num))

/-- `DB::install_compaction_results` (db_impl.rs lines 792-806): add the
input deletions, add every output file at level + 1, and `log_and_apply`
the edit.  `apply_ok` is the oracle for the manifest write inside
`log_and_apply`; on failure no Version is installed. -/
def install_compaction_results (c : CompactionDesc) (outputs : List FileMetaData)
    (apply_ok : Bool) (version : List (Nat × Nat)) :
    Except String Unit × Option EditM × List (Nat × Nat) :=
  let e := add_input_deletions c ⟨[], []⟩
  let e := { e with added := e.added ++ outputs.map (fun o => (c.level + 1, o)) }
  if apply_ok then (Except.ok (), some e, log_and_apply e version)
  else (Except.error "log_and_apply failed", none, version)

/-- `CompactionState::cleanup` (db_impl.rs lines 839-846): unlink the table
file of every output produced so far and drain the output list.  Returns
the unlinked file numbers and the drained list. -/
def cleanup (outputs : List FileMetaData) : List Nat × List FileMetaData :=
  (outputs.map (fun o => o.num), [])

/-- Observable result of the non-trivial branch of `start_compaction`:
final status, table files unlinked by `cleanup`, the edit passed to
`log_and_apply` (if any), and the installed Version. -/
structure StartOutcome where
  status : Except String Unit
  unlinked : List Nat
  applied : Option EditM
  version : List (Nat × Nat)
deriving DecidableEq, Repr

/-- The non-trivial branch of `DB::start_compaction` (db_impl.rs lines
579-591): run `do_compaction_work`; if it returns an error, call
`state.cleanup` and log — and then fall through to
`install_compaction_results(state)` in every case.  (The final
`delete_obsolete_files` sweep is modelled separately, see
`delete_obsolete_files`.)  `fuelOut` and panics abort the model run. -/
def start_compaction_nontrivial (env : CompactionEnv) (fuel : Nat)
    (c : CompactionDesc) (apply_ok : Bool) (smallest_seq nfn : Nat)
    (input : List (IKey × Nat)) (version : List (Nat × Nat)) : StartOutcome :=
  match do_compaction_work env fuel smallest_seq nfn input with
  | WorkOutcome.panicked m => ⟨Except.error m, [], none, version⟩
  | WorkOutcome.fuelOut _ => ⟨Except.error "model fuel exhausted", [], none, version⟩
  | WorkOutcome.ok ls =>
    let (st, ed, v2) := install_compaction_results c ls.cs.outputs apply_ok version
    ⟨st, [], ed, v2⟩
  | WorkOutcome.error _ ls =>
    let (unlinked, outs) := cleanup ls.cs.outputs
    let (st, ed, v2) := install_compaction_results c outs apply_ok version
    ⟨st, unlinked, ed, v2⟩

/-- Environment for claim C3: everything succeeds except the table-cache
check of the finished output, so `do_compaction_work` fails after having
produced one output file. -/
def c3Env : CompactionEnv := { calmEnv with cache_ok := fun _ => false }

/-- Single-entry input for claim C3. -/
def c3Input : List (IKey × Nat) := [(⟨1, 5, ValueType.TypeValue⟩, 11)]

/-- Claim C3: the claim says that when `do_compaction_work` fails, the output
files are unlinked, the VersionEdit is discarded (no `log_and_apply`), and
the input files stay live.  In the run below `do_compaction_work` fails, the
produced output (file 7) is indeed unlinked by `cleanup` — but because
`start_compaction` falls through to `install_compaction_results`, the edit
deleting the inputs (file 3 at level 1, file 4 at level 2) is still applied:
the installed Version drops both inputs, ends up empty, and the error is
swallowed (final status Ok). -/
theorem compaction_error_still_installs_edit :
    start_compaction_nontrivial c3Env 10 ⟨1, [3], [4]⟩ true 10 7 c3Input
        [(1, 3), (2, 4)] =
      ⟨Except.ok (), [7], some ⟨[(1, 3), (2, 4)], []⟩, []⟩ := by
  decide

/-! ## Log recovery (`DB::recover_log_file`, db_impl.rs lines 205-270) -/

/-- One read from the `LogReader`: either a read error (the `while let
Ok(len)` loop then exits) or a record of `len` bytes that decodes to a
WriteBatch with start sequence `seq`, `count` entries, and a memtable
footprint of `usage` bytes. -/
inductive LogItem where
  | rerror
  | record (len : Nat) (seq : Nat) (count : Nat) (usage : Nat)
deriving DecidableEq, Repr

/-- The state the replay loop threads: memtable length and approximate
memory usage (the memtable itself is opaque), the `compactions` counter
(number of L0 flushes performed during replay), the largest sequence seen
and the `save_manifest` flag. -/
structure ReplayState where
  mem_len : Nat
  mem_usage : Nat
  compactions : Nat
  max_seq : Nat
  save_manifest : Bool
deriving DecidableEq, Repr

/-- Initial replay state: fresh memtable, nothing seen. -/
def replayInit : ReplayState := ⟨0, 0, 0, 0, false⟩

/-- The `while let Ok(len) = logreader.read(..)` loop of `recover_log_file`
(db_impl.rs lines 227-252): stop silently on a read error, break on a
zero-length read, skip records shorter than 12 bytes, otherwise insert the
batch into the memtable, update `max_seq` and `save_manifest`, and flush the
memtable as an L0 table when it exceeds `write_buffer_size` (the
`write_l0_table` call during replay is modelled as succeeding; its own
behaviour is the subject of `write_l0_table`). -/
def replayLog (wbs : Nat) : List LogItem → ReplayState → ReplayState
  | [], st => st
  | LogItem.rerror :: _, st => st
  | LogItem.record len seq count usage :: rest, st =>
    if len == 0 then st
    else if len < 12 then replayLog wbs rest st
    else
      let st1 : ReplayState :=
        { st with mem_len := st.mem_len + count,
                  mem_usage := st.mem_usage + usage,
                  save_manifest := true,
                  max_seq := max st.max_seq (seq + count - 1) }
      let st2 :=
        if st1.mem_usage > wbs then
          { st1 with compactions := st1.compactions + 1, mem_len := 0, mem_usage := 0 }
        else st1
      replayLog wbs rest st2

/-- Whether reading the log was clean, i.e. the replay loop ended at the end
of the file (or at a zero-length read) and not on a read error.  This is the
"reading was clean" condition of the claim; the source tracks no such
condition. -/
def readClean : List LogItem → Bool
  | [] => true
  | LogItem.rerror :: _ => false
  | LogItem.record len _ _ _ :: rest => if len == 0 then true else readClean rest

/-- Observable outcome of `recover_log_file`: whether the existing log file
was kept for appending, whether the residual memtable was written as an L0
table, the number of L0 flushes during replay, and the returned values. -/
structure RecoverOut where
  reused : Bool
  residual_l0 : Bool
  replay_l0 : Nat
  mem_len : Nat
  save_manifest : Bool
  max_seq : Nat
deriving DecidableEq, Repr

/-- `DB::recover_log_file` (db_impl.rs lines 205-270): replay the records,
then reuse the log file when `reuse_logs && is_last && compactions == 0`
(with `env_ok` the oracle for `size_of`/`open_appendable_file` on that
path); otherwise write the residual memtable as an L0 table if it is
non-empty. -/
def recover_log_file (reuse_logs is_last env_ok : Bool) (wbs : Nat)
    (items : List LogItem) : Except String RecoverOut :=
  let st := replayLog wbs items replayInit
  if reuse_logs && is_last && st.compactions == 0 then
    if env_ok then
      Except.ok ⟨true, false, st.compactions, st.mem_len, st.save_manifest, st.max_seq⟩
    else Except.error "size_of or open_appendable_file failed"
  else if st.mem_len > 0 then
    Except.ok ⟨false, true, st.compactions, st.mem_len, st.save_manifest, st.max_seq⟩
  else
    Except.ok ⟨false, false, st.compactions, st.mem_len, st.save_manifest, st.max_seq⟩

/-- Log contents for the C5 counterexample: one good record (1 entry at
sequence 5, 10 bytes of memtable usage), then a read error. -/
def c5Items : List LogItem := [LogItem.record 20 5 1 10, LogItem.rerror]

/-- Claim C5 counterexample: the claim requires, among its conjuncts, that
the log was read cleanly for the file to be kept, and that otherwise a
non-empty residual memtable is written as L0.  On `c5Items` the read ends on
an error (not clean) and the memtable holds one entry, yet with `reuse_logs`
enabled on the last log and no flushes the file is kept and no residual L0
table is written. -/
theorem recover_log_reuse_despite_unclean_read :
    readClean c5Items = false ∧
    recover_log_file true true true 100 c5Items =
      Except.ok ⟨true, false, 0, 1, true, 5⟩ := by
  decide

/-- Claim C5 as amended: on a successful run, the log file is kept and
appended to iff `reuse_logs` is enabled, the file is the last log, and no
L0 flush happened during replay — whether or not reading ended cleanly —
and in every other case the residual memtable is written as L0 exactly when
it is non-empty. -/
theorem recover_log_reuse_iff_no_flush (reuse_logs is_last : Bool) (wbs : Nat)
    (items : List LogItem) (out : RecoverOut)
    (h : recover_log_file reuse_logs is_last true wbs items = Except.ok out) :
    out.reused = (reuse_logs && is_last && out.replay_l0 == 0) ∧
    (out.reused = false → out.residual_l0 = decide (0 < out.mem_len)) := by
  unfold recover_log_file at h
  set st := replayLog wbs items replayInit with hst
  by_cases hc : (reuse_logs && is_last && st.compactions == 0) = true
  · rw [if_pos hc, if_pos rfl] at h
    rw [Except.ok.injEq] at h
    subst h
    simp only [Bool.and_eq_true, beq_iff_eq] at hc
    simp [hc.1.1, hc.1.2, hc.2]
  · rw [if_neg hc] at h
    by_cases hm : st.mem_len > 0
    · rw [if_pos hm] at h
      rw [Except.ok.injEq] at h
      subst h
      simp only [Bool.not_eq_true] at hc
      simp [hc, hm]
    · rw [if_neg hm] at h
      rw [Except.ok.injEq] at h
      subst h
      simp only [Bool.not_eq_true] at hc
      simp only [Nat.not_lt, Nat.le_zero] at hm
      simp [hc, hm]

/-- Witness for `recover_log_reuse_iff_no_flush` at the concrete log
contents `c5Items`. -/
theorem recover_log_reuse_iff_no_flush_witness :
    (RecoverOut.mk true false 0 1 true 5).reused =
      (true && true && ((RecoverOut.mk true false 0 1 true 5).replay_l0 == 0)) ∧
    ((RecoverOut.mk true false 0 1 true 5).reused = false →
      (RecoverOut.mk true false 0 1 true 5).residual_l0 =
        decide (0 < (RecoverOut.mk true false 0 1 true 5).mem_len)) :=
  recover_log_reuse_iff_no_flush true true 100 c5Items ⟨true, false, 0, 1, true, 5⟩
    (by decide)

/-! ## Memtable flush (`DB::write_l0_table`, db_impl.rs lines 613-655) -/

/-- Modelled from the spec: `VersionSet::reuse_file_number` (version_set.rs
is not under src/) gives an allocated file number back to the version set:
if it was the most recently allocated one, the next-file counter moves back
so the number is reallocated. -/
def reuse_file_number (n nfn : Nat) : Nat :=
  if n + 1 == nfn then n else nfn

/-- Observable outcome of `write_l0_table`: status, the version set's
next-file counter, the VersionEdit, and any table files unlinked. -/
structure WriteL0Out where
  status : Except String Unit
  next_file_num : Nat
  ve : EditM
  deletedFiles : List Nat
deriving DecidableEq, Repr

/-- `DB::write_l0_table` (db_impl.rs lines 613-655): allocate a file number,
build the table from the memtable (`buildOk`/`buildSize` stand for
`build_table`, which on failure unlinks its own file), reuse the number and
return Ok on an empty result, verify readability through the cache
(`cacheOk`) unlinking the file on failure, pick the placement level from
`base` when present (the value `pick_memtable_output_level` returns), and
record `add_file(level, meta)` in the edit.  The function performs no
manifest append; `log_and_apply` happens in its callers after it returns. -/
def write_l0_table (buildOk : Bool) (buildSize : Nat) (cacheOk : Bool)
    (base : Option Nat) (next_file_num : Nat) (ve : EditM) : WriteL0Out :=
  let num := next_file_num
  let nfn := next_file_num + 1
  if !buildOk then ⟨Except.error "build_table failed", nfn, ve, []⟩
  else
    let fmd : FileMetaData := ⟨num, buildSize, none, none⟩
    if fmd.size == 0 then
      ⟨Except.ok (), reuse_file_number num nfn, ve, []⟩
    else if !cacheOk then
      ⟨Except.error "table not returned by cache", nfn, ve, [num]⟩
    else
      let level := match base with | some l => l | none => 0
      ⟨Except.ok (), nfn, { ve with added := ve.added ++ [(level, fmd)] }, []⟩

/-- Claim C6: when the built table file is empty, `write_l0_table` gives the
allocated number back for reuse (the next-file counter is exactly where it
was), returns Ok, records no `add_file` in the edit, and unlinks nothing;
since the function contains no manifest append at all, the detection
necessarily happens before any manifest append by its callers. -/
theorem write_l0_empty_table_reuses_number (cacheOk : Bool) (base : Option Nat)
    (nfn : Nat) (ve : EditM) (buildSize : Nat) (h : buildSize = 0) :
    write_l0_table true buildSize cacheOk base nfn ve =
      ⟨Except.ok (), nfn, ve, []⟩ := by
  subst h
  simp [write_l0_table, reuse_file_number]

/-- Witness for `write_l0_empty_table_reuses_number` at a concrete state. -/
theorem write_l0_empty_table_reuses_number_witness :
    write_l0_table true 0 true (some 2) 5 ⟨[], []⟩ =
      ⟨Except.ok (), 5, ⟨[], []⟩, []⟩ :=
  write_l0_empty_table_reuses_number true (some 2) 5 ⟨[], []⟩ 0 rfl

/-! ## Obsolete-file collection (`DB::delete_obsolete_files`, db_impl.rs
lines 272-318) -/

/-- File types recognised by `parse_file_name` (types.rs of the repository):
write-ahead log, manifest (descriptor), table, temp, CURRENT, LOCK and the
info log. -/
inductive FType where
  | log
  | descriptor
  | table
  | temp
  | current
  | dblock
  | infolog
deriving DecidableEq, Repr

/-- Filesystem actions `delete_obsolete_files` performs, in order: a
TableCache eviction, or a deletion attempt whose success is recorded (a
failed attempt is only logged). -/
inductive DEvent where
  | evict (num : Nat)
  | tryDelete (num : Nat) (typ : FType) (succeeded : Bool)
deriving DecidableEq, Repr

/-- The body of the `for name in filenames` loop of `delete_obsolete_files`:
entries that fail `parse_file_name` are skipped (`none`); for the rest the
source `match` decides whether to `continue`; surviving table files are
evicted from the cache and then a deletion is attempted (`delOk` is the
oracle for `env.delete`; its failure is only logged). -/
def delete_one (live : List Nat) (log_num manifest_num : Nat)
    (delOk : Nat → FType → Bool) (ent : Option (Nat × FType)) : List DEvent :=
  match ent with
  | none => []
  | some (num, typ) =>
    let skip : Bool :=
      match typ with
      | FType.log => decide (num ≥ log_num)
      | FType.descriptor => decide (num ≥ manifest_num)
      | FType.table => live.contains num
      | FType.temp => live.contains num
      | FType.current => true
      | FType.dblock => true
      | FType.infolog => true
    if skip then []
    else
      (if typ == FType.table then [DEvent.evict num] else []) ++
        [DEvent.tryDelete num typ (delOk num typ)]

/-- The loop of `delete_obsolete_files` over all directory entries. -/
def deleteEventsLoop (live : List Nat) (log_num manifest_num : Nat)
    (delOk : Nat → FType → Bool) : List (Option (Nat × FType)) → List DEvent
  | [] => []
  | ent :: rest =>
    delete_one live log_num manifest_num delOk ent ++
      deleteEventsLoop live log_num manifest_num delOk rest

/-- `DB::delete_obsolete_files` (db_impl.rs lines 272-318): `live` is the
version set's `live_files()`, computed once up front; the function walks the
directory entries and always returns Ok. -/
def delete_obsolete_files (live : List Nat) (log_num manifest_num : Nat)
    (delOk : Nat → FType → Bool) (entries : List (Option (Nat × FType))) :
    Except String Unit × List DEvent :=
  (Except.ok (), deleteEventsLoop live log_num manifest_num delOk entries)

/-- The actions claim C7 predicts for one directory entry, written from the
claim: delete log files with number below the log number and manifest files
with number below the manifest number; delete table and temp files whose
number is not live, evicting a table file from the TableCache before the
unlink; never touch CURRENT, LOCK or info-log files; record but swallow
deletion failures. -/
def claimedObsoleteEvents (live : List Nat) (log_num manifest_num : Nat)
    (delOk : Nat → FType → Bool) (ent : Option (Nat × FType)) : List DEvent :=
  match ent with
  | none => []
  | some (num, FType.log) =>
    if num < log_num then [DEvent.tryDelete num FType.log (delOk num FType.log)] else []
  | some (num, FType.descriptor) =>
    if num < manifest_num then
      [DEvent.tryDelete num FType.descriptor (delOk num FType.descriptor)]
    else []
  | some (num, FType.table) =>
    if live.contains num then []
    else [DEvent.evict num, DEvent.tryDelete num FType.table (delOk num FType.table)]
  | some (num, FType.temp) =>
    if live.contains num then []
    else [DEvent.tryDelete num FType.temp (delOk num FType.temp)]
  | some (_, FType.current) => []
  | some (_, FType.dblock) => []
  | some (_, FType.infolog) => []

/-- The whole action list claim C7 predicts. -/
def claimedObsoleteAll (live : List Nat) (log_num manifest_num : Nat)
    (delOk : Nat → FType → Bool) : List (Option (Nat × FType)) → List DEvent
  | [] => []
  | ent :: rest =>
    claimedObsoleteEvents live log_num manifest_num delOk ent ++
      claimedObsoleteAll live log_num manifest_num delOk rest

/-- Per-entry agreement between the source loop body and the claim. -/
theorem delete_one_eq_claimed (live : List Nat) (log_num manifest_num : Nat)
    (delOk : Nat → FType → Bool) (ent : Option (Nat × FType)) :
    delete_one live log_num manifest_num delOk ent =
      claimedObsoleteEvents live log_num manifest_num delOk ent := by
  rcases ent with _ | ⟨num, typ⟩
  · rfl
  · cases typ
    · by_cases hl : num < log_num <;>
        simp [delete_one, claimedObsoleteEvents, hl, Nat.not_lt]
    · by_cases hl : num < manifest_num <;>
        simp [delete_one, claimedObsoleteEvents, hl, Nat.not_lt]
    · by_cases hl : live.contains num = true <;>
        simp [delete_one, claimedObsoleteEvents, hl]
    · by_cases hl : live.contains num = true <;>
        simp [delete_one, claimedObsoleteEvents, hl]
    · rfl
    · rfl
    · rfl

/-- Claim C7: `delete_obsolete_files` returns Ok whatever the per-file
deletion outcomes are, and its action sequence is exactly the one the claim
describes, entry by entry. -/
theorem delete_obsolete_files_exact (live : List Nat) (log_num manifest_num : Nat)
    (delOk : Nat → FType → Bool) (entries : List (Option (Nat × FType))) :
    delete_obsolete_files live log_num manifest_num delOk entries =
      (Except.ok (), claimedObsoleteAll live log_num manifest_num delOk entries) := by
  unfold delete_obsolete_files
  have hloop : ∀ es, deleteEventsLoop live log_num manifest_num delOk es =
      claimedObsoleteAll live log_num manifest_num delOk es := by
    intro es
    induction es with
    | nil => rfl
    | cons ent rest ih =>
      simp only [deleteEventsLoop, claimedObsoleteAll, ih, delete_one_eq_claimed]
  rw [hloop]

/-! ## Read path (`DB::get_internal`, db_impl.rs lines 383-418, `DB::get`,
lines 427-434) -/

/-- The pair `MemTable::get` returns: `(Option value, deletion flag)` —
`(Some v, _)` for a value, `(None, true)` for a tombstone, `(None, false)`
when the key is absent. -/
structure MemGetResult where
  value : Option (List Nat)
  deleted : Bool
deriving DecidableEq, Repr

/-- The result of `Version::get` on the current Version:
`Ok (Some (value, read statistics))`, `Ok None`, or an error. -/
abbrev VerGetResult := Except String (Option (List Nat × Nat))

/-- Which stores a lookup touched, in order. -/
inductive Consult where
  | mem
  | imm
  | version
deriving DecidableEq, Repr

/-- `DB::get_internal` (db_impl.rs lines 383-418): match on the active
memtable result, then — when present — on the immutable memtable result,
then `if let Ok(Some((v, st))) = current.get(..)`; any other version result
(`Ok None` or an error) falls through to `Ok(None)`.  `memRes`, `immRes`
and `verRes` are the oracles for the three stores at the looked-up key;
alongside the returned value the consulted stores are recorded in order. -/
def get_internal (memRes : MemGetResult) (immRes : Option MemGetResult)
    (verRes : VerGetResult) : Except String (Option (List Nat)) × List Consult :=
  match memRes with
  | ⟨some v, _⟩ => (Except.ok (some v), [Consult.mem])
  | ⟨none, true⟩ => (Except.ok none, [Consult.mem])
  | ⟨none, false⟩ =>
    let immStep : Option (Except String (Option (List Nat))) × List Consult :=
      match immRes with
      | some ⟨some v, _⟩ => (some (Except.ok (some v)), [Consult.mem, Consult.imm])
      | some ⟨none, true⟩ => (some (Except.ok none), [Consult.mem, Consult.imm])
      | some ⟨none, false⟩ => (none, [Consult.mem, Consult.imm])
      | none => (none, [Consult.mem])
    match immStep with
    | (some r, cs) => (r, cs)
    | (none, cs) =>
      match verRes with
      | Except.ok (some (v, _)) => (Except.ok (some v), cs ++ [Consult.version])
      | _ => (Except.ok none, cs ++ [Consult.version])

/-- Outcome of probing one memtable, as the claim describes it. -/
inductive MemStep where
  | found (v : List Nat)
  | tombstone
  | miss
deriving DecidableEq, Repr

/-- Classify a memtable probe per the claim: a value wins, otherwise the
deletion flag marks a tombstone, otherwise the key is absent. -/
def memStepOf (r : MemGetResult) : MemStep :=
  match r.value with
  | some v => MemStep.found v
  | none => if r.deleted then MemStep.tombstone else MemStep.miss

/-- The lookup claim C8 describes: consult the active memtable first; a
value or tombstone there settles the lookup (a tombstone as `Ok None`)
without touching anything else; on a miss consult the immutable memtable
the same way when present; only when both miss are the current Version's
table files consulted, a version error or absence reading as `Ok None`. -/
def claimedLookup (memRes : MemGetResult) (immRes : Option MemGetResult)
    (verRes : VerGetResult) : Except String (Option (List Nat)) × List Consult :=
  let versionStep : List Consult → Except String (Option (List Nat)) × List Consult :=
    fun cs =>
      match verRes with
      | Except.ok (some (v, _)) => (Except.ok (some v), cs ++ [Consult.version])
      | _ => (Except.ok none, cs ++ [Consult.version])
  match memStepOf memRes with
  | MemStep.found v => (Except.ok (some v), [Consult.mem])
  | MemStep.tombstone => (Except.ok none, [Consult.mem])
  | MemStep.miss =>
    match immRes with
    | none => versionStep [Consult.mem]
    | some ir =>
      match memStepOf ir with
      | MemStep.found v => (Except.ok (some v), [Consult.mem, Consult.imm])
      | MemStep.tombstone => (Except.ok none, [Consult.mem, Consult.imm])
      | MemStep.miss => versionStep [Consult.mem, Consult.imm]

/-- Claim C8: `get_internal` behaves exactly as the claim describes — active
memtable first, then the immutable memtable when present, then the Version;
a tombstone in either memtable yields `Ok None` with no version consult. -/
theorem get_internal_consult_order (memRes : MemGetResult)
    (immRes : Option MemGetResult) (verRes : VerGetResult) :
    get_internal memRes immRes verRes = claimedLookup memRes immRes verRes := by
  rcases memRes with ⟨_ | mv, _ | _⟩ <;>
    rcases immRes with _ | ⟨_ | iv, _ | _⟩ <;>
      rcases verRes with _ | _ | ⟨vv, vst⟩ <;> rfl

/-- `DB::get` (db_impl.rs lines 427-434): run `get_internal` at the current
last sequence and turn any error into `None`. -/
def get (memRes : MemGetResult) (immRes : Option MemGetResult)
    (verRes : VerGetResult) : Option (List Nat) :=
  match (get_internal memRes immRes verRes).fst with
  | Except.ok r => r
  | Except.error _ => none

/-- Claim C9: `get_internal` in fact never returns an error — its result is
always `Ok` of exactly what `get` returns — and when the table-file read
errors while both memtables miss, `get` returns `None`, indistinguishable
from a missing key. -/
theorem get_never_surfaces_error (memRes : MemGetResult)
    (immRes : Option MemGetResult) (verRes : VerGetResult) (e : String) :
    (get_internal memRes immRes verRes).fst =
      Except.ok (get memRes immRes verRes) ∧
    get ⟨none, false⟩ (some ⟨none, false⟩) (Except.error e) = none ∧
    get ⟨none, false⟩ none (Except.error e) = none := by
  refine ⟨?_, rfl, rfl⟩
  rcases memRes with ⟨_ | mv, _ | _⟩ <;>
    rcases immRes with _ | ⟨_ | iv, _ | _⟩ <;>
      rcases verRes with _ | _ | ⟨vv, vst⟩ <;> rfl

/-! ## Memtable rotation (`DB::make_room_for_write`, db_impl.rs lines
508-528) -/

/-- The state `make_room_for_write` touches: the active memtable (an
identity token plus its approximate memory usage), the immutable memtable,
the log writer and log number (holding the file number they write to), and
the version set's next-file counter. -/
structure RoomState where
  mem_usage : Nat
  mem_id : Nat
  imm : Option Nat
  log : Option Nat
  log_num : Option Nat
  next_file_num : Nat
deriving DecidableEq, Repr

/-- `DB::make_room_for_write` (db_impl.rs lines 508-528): nothing happens
below the buffer threshold; otherwise a new log file number is allocated
and the log file opened (`openOk` oracle).  On open failure the number is
given back via `reuse_file_number` and the error returned; on success the
log is swapped, the active memtable rotates to immutable, a fresh memtable
is installed and `maybe_do_compaction` runs (its result is the
`compactionResult` oracle). -/
def make_room_for_write (wbs : Nat) (openOk : Bool)
    (compactionResult : Except String Unit) (st : RoomState) :
    Except String Unit × RoomState :=
  if st.mem_usage < wbs then (Except.ok (), st)
  else
    let logn := st.next_file_num
    let st1 := { st with next_file_num := st.next_file_num + 1 }
    if !openOk then
      (Except.error "open_writable_file failed",
       { st1 with next_file_num := reuse_file_number logn st1.next_file_num })
    else
      let st2 : RoomState :=
        { mem_usage := 0, mem_id := st1.mem_id + 1, imm := some st1.mem_id,
          log := some logn, log_num := some logn,
          next_file_num := st1.next_file_num }
      (compactionResult, st2)

/-- Claim C10: when rotation is due but opening the new log file fails,
`make_room_for_write` returns the error and the state is exactly the one it
started from — the allocated number went back to the version set, and the
memtable, immutable memtable, log writer and log number are untouched. -/
theorem make_room_rotate_failure_atomic (wbs : Nat)
    (compactionResult : Except String Unit) (st : RoomState)
    (h : wbs ≤ st.mem_usage) :
    make_room_for_write wbs false compactionResult st =
      (Except.error "open_writable_file failed", st) := by
  unfold make_room_for_write reuse_file_number
  simp [Nat.not_lt.mpr h]

/-- Witness for `make_room_rotate_failure_atomic` at a concrete state. -/
theorem make_room_rotate_failure_atomic_witness :
    make_room_for_write 5 false (Except.ok ()) ⟨10, 0, none, some 1, some 1, 5⟩ =
      (Except.error "open_writable_file failed", ⟨10, 0, none, some 1, some 1, 5⟩) :=
  make_room_rotate_failure_atomic 5 (Except.ok ()) ⟨10, 0, none, some 1, some 1, 5⟩
    (by decide)

end RustyDB
